import Mathlib

/-!
Shallow embedding of the client-side letterhead component from
src/components/letterhead.tsx: the component state held in its useState
hooks, the file-change handler with its intake validation and its
try/catch/finally rendering pipeline, the zoom controller, and the
render-scale geometry.  JavaScript numbers are modelled as exact
rationals (the code rounds zoom values to two decimals precisely so that
they behave as exact decimals), and the asynchronous pipeline of an
accepted upload is modelled by an explicit outcome value describing
where it succeeded or threw.
-/

namespace Letterhead

/-- A file as delivered by the browser file picker.  The handler only
reads the file name and the MIME type; the raw bytes are handed opaquely
to the PDF library, so their effect is represented by the pipeline
outcome instead. -/
structure MFile where
  name : String
  type : String
deriving DecidableEq, Repr

/-- The component state: one field per useState hook of the Letterhead
component (lines 23 to 28 of letterhead.tsx). -/
structure LetterheadState where
  renderedImage : Option String
  pdfName : Option String
  isRendering : Bool
  renderError : Option String
  pageCount : Option Nat
  zoomLevel : ℚ
deriving DecidableEq, Repr

/-- The initial state of the component: the useState initial values. -/
def initialState : LetterheadState :=
  { renderedImage := none
    pdfName := none
    isRendering := false
    renderError := none
    pageCount := none
    zoomLevel := 1.0 }

/-- A JavaScript thrown value, distinguished exactly as far as the catch
branch of handleFileChange distinguishes it: an Error instance carrying
a message string, or any other thrown value. -/
inductive JsThrown where
  | errorObj (message : String)
  | other
deriving DecidableEq, Repr

/-- Outcome of the asynchronous block of handleFileChange for an
accepted PDF: a throw before setPageCount runs (file read, module load,
or getDocument fails), a throw after it (getPage, viewport or render
fails), the explicit throw when canvas.getContext returns null, or
success with the document's page count and the encoded data URL. -/
inductive PipelineOutcome where
  | failEarly (e : JsThrown)
  | failLate (numPages : Nat) (e : JsThrown)
  | noCanvasContext (numPages : Nat)
  | ok (numPages : Nat) (dataUrl : String)
deriving DecidableEq, Repr

/-- The fixed message set when a non-PDF MIME type is selected. -/
def invalidTypeMessage : String := "Please select a PDF file."

/-- The generic fallback message used when the thrown value is not an
Error instance. -/
def genericRenderMessage : String := "Something went wrong while rendering the PDF."

/-- The message of the Error thrown when canvas.getContext yields null. -/
def canvasContextMessage : String := "Unable to create canvas context for preview."

/-- The message the catch branch computes from the thrown value:
error.message when the value is an Error instance, otherwise the generic
fallback (lines 109 to 110 of letterhead.tsx). -/
def caughtMessage : JsThrown → String
  | .errorObj m => m
  | .other => genericRenderMessage

/-- The catch branch of handleFileChange: clear the rendered image and
the page count and store the message (lines 105 to 111). -/
def applyCatch (s : LetterheadState) (msg : String) : LetterheadState :=
  { s with renderedImage := none, pageCount := none, renderError := some msg }

/-- The synchronous prelude run on an accepted PDF before the
asynchronous pipeline begins: store the file name, reset the zoom,
clear any prior error, and raise the rendering flag (lines 54 to 57). -/
def acceptPrelude (s : LetterheadState) (file : MFile) : LetterheadState :=
  { s with pdfName := some file.name
           zoomLevel := 1.0
           renderError := none
           isRendering := true }

/-- The try/catch/finally block of handleFileChange (lines 59 to 114):
on success record the page count and the rendered data URL; on a late
throw the page count has already been recorded before the catch branch
erases it again; the finally branch always lowers the rendering flag. -/
def runPipeline (s : LetterheadState) (o : PipelineOutcome) : LetterheadState :=
  let afterTry :=
    match o with
    | .failEarly e => applyCatch s (caughtMessage e)
    | .failLate n e => applyCatch { s with pageCount := some n } (caughtMessage e)
    | .noCanvasContext n => applyCatch { s with pageCount := some n } canvasContextMessage
    | .ok n d => { s with pageCount := some n, renderedImage := some d }
  { afterTry with isRendering := false }

/-- The handleFileChange handler (lines 42 to 115): an empty selection
returns immediately; a non-PDF MIME type is rejected with the fixed
message and the preview state is cleared; an accepted PDF runs the
prelude and then the rendering pipeline. -/
def handleFileChange (s : LetterheadState) (selection : Option MFile)
    (o : PipelineOutcome) : LetterheadState :=
  match selection with
  | none => s
  | some file =>
      if file.type ≠ "application/pdf" then
        { s with renderError := some invalidTypeMessage
                 renderedImage := none
                 pdfName := none
                 pageCount := none }
      else
        runPipeline (acceptPrelude s file) o

/-- Rounding as performed by Number(x.toFixed(2)) on the zoom values:
round to the nearest multiple of one hundredth, ties toward the larger
candidate. -/
def round2 (q : ℚ) : ℚ := (⌊q * 100 + 1 / 2⌋ : ℚ) / 100

/-- The zoom-out handler (lines 117 to 122): step down by 0.1, floor at
0.8, round to two decimals. -/
def handleZoomOut (v : ℚ) : ℚ := round2 (max 0.8 (v - 0.1))

/-- The zoom-in handler (lines 124 to 129): step up by 0.1, cap at 1.8,
round to two decimals. -/
def handleZoomIn (v : ℚ) : ℚ := round2 (min 1.8 (v + 0.1))

/-- The zoom-reset handler (lines 131 to 133): set the zoom to 1.0. -/
def handleZoomReset : ℚ := 1.0

/-- One user action on the zoom controls. -/
inductive ZoomOp where
  | zoomOut
  | zoomIn
  | reset
deriving DecidableEq, Repr

/-- Apply one zoom action to the current zoom level. -/
def applyZoomOp (op : ZoomOp) (v : ℚ) : ℚ :=
  match op with
  | .zoomOut => handleZoomOut v
  | .zoomIn => handleZoomIn v
  | .reset => handleZoomReset

/-- Apply a sequence of zoom actions, left to right. -/
def applyZoomOps (ops : List ZoomOp) (v : ℚ) : ℚ :=
  ops.foldl (fun w op => applyZoomOp op w) v

/-- Rounding to two decimal places in the mathematical sense used by the
spec: one hundredth of the integer nearest to one hundred times the
value, ties rounded up. -/
def roundTwoDecimals (q : ℚ) : ℚ := (round (q * 100) : ℚ) / 100

/-- Viewport width produced by page.getViewport for a given scale: the
native page width times the scale (the page is not rotated). -/
def viewportWidth (nativeWidth scale : ℚ) : ℚ := nativeWidth * scale

/-- The target scale of line 72: containerWidth divided by the width of
the unscaled viewport. -/
def targetScale (containerWidth nativeWidth : ℚ) : ℚ := containerWidth / nativeWidth

/-- The render scale of line 73: four times the target scale. -/
def renderScale (containerWidth nativeWidth : ℚ) : ℚ :=
  targetScale containerWidth nativeWidth * 4

/-- The effective container width of line 69: the live container's
clientWidth when the ref is attached, else the native page width. -/
def effectiveContainerWidth (clientWidth : Option ℚ) (nativeWidth : ℚ) : ℚ :=
  clientWidth.getD nativeWidth

/-- The canvas pixel width of line 87: assigning the possibly fractional
scaled viewport width to canvas.width truncates it to an integer. -/
def canvasWidth (containerWidth nativeWidth : ℚ) : ℤ :=
  ⌊viewportWidth nativeWidth (renderScale containerWidth nativeWidth)⌋

/-- Sample accepted PDF files and a rejected text file, used as concrete
inputs for witnesses and counterexamples. -/
def samplePdf : MFile := { name := "sample.pdf", type := "application/pdf" }

/-- A second accepted PDF file. -/
def samplePdfB : MFile := { name := "second.pdf", type := "application/pdf" }

/-- A file whose MIME type is not application/pdf. -/
def textFile : MFile := { name := "notes.txt", type := "text/plain" }

/-- A state reached after one successful render, used to exhibit what a
later upload does to the previously rendered image. -/
def previousRenderState : LetterheadState :=
  { renderedImage := some "data:image/jpeg;base64,first"
    pdfName := some "first.pdf"
    isRendering := false
    renderError := none
    pageCount := some 1
    zoomLevel := 1.0 }

/-- Zoom levels reachable by the controls: an integer number of tenths
between 0.8 and 1.8. -/
def ZoomInv (v : ℚ) : Prop := ∃ k : ℤ, v = (k : ℚ) / 10 ∧ 8 ≤ k ∧ k ≤ 18

lemma round2_tenth (k : ℤ) : round2 ((k : ℚ) / 10) = (k : ℚ) / 10 := by
  unfold round2
  have h1 : (k : ℚ) / 10 * 100 + 1 / 2 = ((10 * k : ℤ) : ℚ) + 1 / 2 := by
    push_cast
    ring
  have h2 : ⌊(1 / 2 : ℚ)⌋ = 0 := by norm_num
  rw [h1, Int.floor_int_add, h2]
  push_cast
  ring

lemma handleZoomIn_tenth (k : ℤ) :
    handleZoomIn ((k : ℚ) / 10) = ((min (k + 1) 18 : ℤ) : ℚ) / 10 := by
  unfold handleZoomIn
  have hv : (k : ℚ) / 10 + 0.1 = ((k + 1 : ℤ) : ℚ) / 10 := by
    rw [show (0.1 : ℚ) = 1 / 10 by norm_num]
    push_cast
    ring
  have h18 : (1.8 : ℚ) = ((18 : ℤ) : ℚ) / 10 := by norm_num
  rw [hv, h18]
  rcases le_total (k + 1) 18 with h | h
  · have hq : ((k + 1 : ℤ) : ℚ) / 10 ≤ ((18 : ℤ) : ℚ) / 10 := by
      have hc : ((k : ℚ) + 1) ≤ 18 := by exact_mod_cast h
      push_cast
      linarith
    rw [min_eq_right hq, min_eq_left h, round2_tenth]
  · have hq : ((18 : ℤ) : ℚ) / 10 ≤ ((k + 1 : ℤ) : ℚ) / 10 := by
      have hc : (18 : ℚ) ≤ (k : ℚ) + 1 := by exact_mod_cast h
      push_cast
      linarith
    rw [min_eq_left hq, min_eq_right h, round2_tenth]

lemma handleZoomOut_tenth (k : ℤ) :
    handleZoomOut ((k : ℚ) / 10) = ((max (k - 1) 8 : ℤ) : ℚ) / 10 := by
  unfold handleZoomOut
  have hv : (k : ℚ) / 10 - 0.1 = ((k - 1 : ℤ) : ℚ) / 10 := by
    rw [show (0.1 : ℚ) = 1 / 10 by norm_num]
    push_cast
    ring
  have h8 : (0.8 : ℚ) = ((8 : ℤ) : ℚ) / 10 := by norm_num
  rw [hv, h8]
  rcases le_total (k - 1) 8 with h | h
  · have hq : ((k - 1 : ℤ) : ℚ) / 10 ≤ ((8 : ℤ) : ℚ) / 10 := by
      have hc : ((k : ℚ) - 1) ≤ 8 := by exact_mod_cast h
      push_cast
      linarith
    rw [max_eq_left hq, max_eq_right h, round2_tenth]
  · have hq : ((8 : ℤ) : ℚ) / 10 ≤ ((k - 1 : ℤ) : ℚ) / 10 := by
      have hc : (8 : ℚ) ≤ (k : ℚ) - 1 := by exact_mod_cast h
      push_cast
      linarith
    rw [max_eq_right hq, max_eq_left h, round2_tenth]

lemma applyZoomOps_cons (op : ZoomOp) (ops : List ZoomOp) (v : ℚ) :
    applyZoomOps (op :: ops) v = applyZoomOps ops (applyZoomOp op v) := rfl

lemma zoomInv_op (op : ZoomOp) {v : ℚ} (h : ZoomInv v) : ZoomInv (applyZoomOp op v) := by
  obtain ⟨k, rfl, h8, h18⟩ := h
  cases op with
  | zoomOut =>
      refine ⟨max (k - 1) 8, ?_, ?_, ?_⟩
      · rw [applyZoomOp, handleZoomOut_tenth]
      · omega
      · omega
  | zoomIn =>
      refine ⟨min (k + 1) 18, ?_, ?_, ?_⟩
      · rw [applyZoomOp, handleZoomIn_tenth]
      · omega
      · omega
  | reset =>
      refine ⟨10, ?_, by norm_num, by norm_num⟩
      rw [applyZoomOp, handleZoomReset]
      norm_num

lemma zoomInv_ops (ops : List ZoomOp) : ∀ v : ℚ, ZoomInv v → ZoomInv (applyZoomOps ops v) := by
  induction ops with
  | nil => intro v h; exact h
  | cons op ops ih =>
      intro v h
      rw [applyZoomOps_cons]
      exact ih _ (zoomInv_op op h)

lemma zoomInv_bounds {v : ℚ} (h : ZoomInv v) : 0.8 ≤ v ∧ v ≤ 1.8 := by
  obtain ⟨k, rfl, h8, h18⟩ := h
  have hl : (8 : ℚ) ≤ (k : ℚ) := by exact_mod_cast h8
  have hu : (k : ℚ) ≤ (18 : ℚ) := by exact_mod_cast h18
  constructor
  · rw [show (0.8 : ℚ) = 8 / 10 by norm_num]
    linarith
  · rw [show (1.8 : ℚ) = 18 / 10 by norm_num]
    linarith

lemma zoomIn_iter (n : ℕ) : ∀ k : ℤ, 8 ≤ k → k ≤ 18 →
    applyZoomOps (List.replicate n ZoomOp.zoomIn) ((k : ℚ) / 10)
      = ((min (k + n) 18 : ℤ) : ℚ) / 10 := by
  induction n with
  | zero =>
      intro k h8 h18
      rw [List.replicate_zero]
      have : min (k + (0 : ℕ)) 18 = k := by omega
      rw [this]
      rfl
  | succ n ih =>
      intro k h8 h18
      rw [List.replicate_succ, applyZoomOps_cons]
      have hstep : applyZoomOp ZoomOp.zoomIn ((k : ℚ) / 10)
          = ((min (k + 1) 18 : ℤ) : ℚ) / 10 := by
        rw [applyZoomOp, handleZoomIn_tenth]
      rw [hstep, ih (min (k + 1) 18) (by omega) (by omega)]
      have : min (min (k + 1) 18 + (n : ℕ)) 18 = min (k + (n + 1 : ℕ)) 18 := by
        push_cast
        omega
      rw [this]

lemma zoomOut_iter (n : ℕ) : ∀ k : ℤ, 8 ≤ k → k ≤ 18 →
    applyZoomOps (List.replicate n ZoomOp.zoomOut) ((k : ℚ) / 10)
      = ((max (k - n) 8 : ℤ) : ℚ) / 10 := by
  induction n with
  | zero =>
      intro k h8 h18
      rw [List.replicate_zero]
      have : max (k - (0 : ℕ)) 8 = k := by omega
      rw [this]
      rfl
  | succ n ih =>
      intro k h8 h18
      rw [List.replicate_succ, applyZoomOps_cons]
      have hstep : applyZoomOp ZoomOp.zoomOut ((k : ℚ) / 10)
          = ((max (k - 1) 8 : ℤ) : ℚ) / 10 := by
        rw [applyZoomOp, handleZoomOut_tenth]
      rw [hstep, ih (max (k - 1) 8) (by omega) (by omega)]
      have : max (max (k - 1) 8 - (n : ℕ)) 8 = max (k - (n + 1 : ℕ)) 8 := by
        push_cast
        omega
      rw [this]

/-- Claim C3: starting from 1.0, every sequence of zoom-in, zoom-out and
reset operations keeps the zoom level within [0.8, 1.8]; repeated
increments from 1.0 saturate at exactly 1.8, and repeated decrements
saturate at exactly 0.8. -/
theorem zoom_bounded_saturating :
    (∀ ops : List ZoomOp,
        0.8 ≤ applyZoomOps ops 1 ∧ applyZoomOps ops 1 ≤ 1.8)
    ∧ (∀ n : ℕ, 8 ≤ n → applyZoomOps (List.replicate n ZoomOp.zoomIn) 1 = 1.8)
    ∧ (∀ n : ℕ, 2 ≤ n → applyZoomOps (List.replicate n ZoomOp.zoomOut) 1 = 0.8) := by
  have hone : (1 : ℚ) = ((10 : ℤ) : ℚ) / 10 := by norm_num
  refine ⟨?_, ?_, ?_⟩
  · intro ops
    refine zoomInv_bounds (zoomInv_ops ops 1 ⟨10, by norm_num, by norm_num, by norm_num⟩)
  · intro n hn
    rw [hone, zoomIn_iter n 10 (by norm_num) (by norm_num)]
    have : min (10 + (n : ℤ)) 18 = (18 : ℤ) := by omega
    rw [this]
    norm_num
  · intro n hn
    rw [hone, zoomOut_iter n 10 (by norm_num) (by norm_num)]
    have : max (10 - (n : ℤ)) 8 = (8 : ℤ) := by omega
    rw [this]
    norm_num

/-- Witness for C3 at concrete inputs. -/
theorem zoom_bounded_saturating_witness :
    (0.8 ≤ applyZoomOps [ZoomOp.zoomIn, ZoomOp.reset, ZoomOp.zoomOut] 1
      ∧ applyZoomOps [ZoomOp.zoomIn, ZoomOp.reset, ZoomOp.zoomOut] 1 ≤ 1.8)
    ∧ applyZoomOps (List.replicate 9 ZoomOp.zoomIn) 1 = 1.8
    ∧ applyZoomOps (List.replicate 2 ZoomOp.zoomOut) 1 = 0.8 :=
  ⟨zoom_bounded_saturating.1 [ZoomOp.zoomIn, ZoomOp.reset, ZoomOp.zoomOut],
   zoom_bounded_saturating.2.1 9 (by norm_num),
   zoom_bounded_saturating.2.2 2 (by norm_num)⟩

/-- Claim C4: for every current zoom value, zoom-out computes the
maximum of 0.8 and the value less 0.1 rounded to two decimals, zoom-in
computes the minimum of 1.8 and the value plus 0.1 rounded to two
decimals, and reset yields exactly 1.0 regardless of the prior value. -/
theorem zoom_ops_formula (v : ℚ) :
    handleZoomOut v = roundTwoDecimals (max 0.8 (v - 0.1))
    ∧ handleZoomIn v = roundTwoDecimals (min 1.8 (v + 0.1))
    ∧ handleZoomReset = 1.0 := by
  refine ⟨?_, ?_, rfl⟩
  · unfold handleZoomOut roundTwoDecimals round2
    rw [round_eq]
  · unfold handleZoomIn roundTwoDecimals round2
    rw [round_eq]

/-- Claim C2: a selection whose MIME type is not application/pdf never
yields a rendered image, always sets the fixed invalid-type message, and
clears the prior preview state: rendered image, file name and page count
all become null. -/
theorem nonPdf_rejected (s : LetterheadState) (f : MFile) (o : PipelineOutcome)
    (hf : f.type ≠ "application/pdf") :
    (handleFileChange s (some f) o).renderedImage = none
    ∧ (handleFileChange s (some f) o).renderError = some invalidTypeMessage
    ∧ (handleFileChange s (some f) o).pdfName = none
    ∧ (handleFileChange s (some f) o).pageCount = none := by
  simp [handleFileChange, hf]

/-- Witness for C2 at a concrete text file. -/
theorem nonPdf_rejected_witness :
    (handleFileChange initialState (some textFile) (PipelineOutcome.ok 1 "d")).renderedImage = none
    ∧ (handleFileChange initialState (some textFile) (PipelineOutcome.ok 1 "d")).renderError
        = some invalidTypeMessage
    ∧ (handleFileChange initialState (some textFile) (PipelineOutcome.ok 1 "d")).pdfName = none
    ∧ (handleFileChange initialState (some textFile) (PipelineOutcome.ok 1 "d")).pageCount = none :=
  nonPdf_rejected initialState textFile (PipelineOutcome.ok 1 "d") (by decide)

/-- Claim C9: a file-change event with an empty selection returns
immediately and leaves every state field unchanged. -/
theorem empty_selection_noop (s : LetterheadState) (o : PipelineOutcome) :
    handleFileChange s none o = s := rfl

/-- Claim C10: every invocation that enters the rendering pipeline ends
with the rendering-in-progress flag false, on the success path and on
every failure path, because the finally branch always clears it. -/
theorem rendering_flag_cleared (s : LetterheadState) (f : MFile) (o : PipelineOutcome)
    (hf : f.type = "application/pdf") :
    (handleFileChange s (some f) o).isRendering = false := by
  cases o <;> simp [handleFileChange, hf, runPipeline, acceptPrelude, applyCatch]

/-- Witness for C10 at a concrete accepted PDF and a failing outcome. -/
theorem rendering_flag_cleared_witness :
    (handleFileChange initialState (some samplePdf)
        (PipelineOutcome.failEarly JsThrown.other)).isRendering = false :=
  rendering_flag_cleared initialState samplePdf (PipelineOutcome.failEarly JsThrown.other) rfl

/-- Claim C8: on every accepted PDF selection the handler, before the
asynchronous pipeline begins, resets the zoom level to exactly 1.0,
clears any prior error message, and raises the rendering flag; the rest
of the handler is the pipeline run from that prelude state. -/
theorem accept_prelude_spec (s : LetterheadState) (f : MFile) (o : PipelineOutcome)
    (hf : f.type = "application/pdf") :
    (acceptPrelude s f).zoomLevel = 1.0
    ∧ (acceptPrelude s f).renderError = none
    ∧ (acceptPrelude s f).isRendering = true
    ∧ handleFileChange s (some f) o = runPipeline (acceptPrelude s f) o := by
  refine ⟨rfl, rfl, rfl, ?_⟩
  simp [handleFileChange, hf]

/-- Witness for C8 at a concrete accepted PDF. -/
theorem accept_prelude_spec_witness :
    (acceptPrelude previousRenderState samplePdf).zoomLevel = 1.0
    ∧ (acceptPrelude previousRenderState samplePdf).renderError = none
    ∧ (acceptPrelude previousRenderState samplePdf).isRendering = true
    ∧ handleFileChange previousRenderState (some samplePdf) (PipelineOutcome.ok 2 "d")
        = runPipeline (acceptPrelude previousRenderState samplePdf) (PipelineOutcome.ok 2 "d") :=
  accept_prelude_spec previousRenderState samplePdf (PipelineOutcome.ok 2 "d") rfl

/-- Claim C7: after a first valid PDF renders successfully and then a
second valid PDF renders successfully, the file name, rendered image and
page count all come from the second invocation, with no residual value
from the first file. -/
theorem second_upload_replaces (s : LetterheadState) (f1 f2 : MFile)
    (n1 n2 : Nat) (d1 d2 : String)
    (h1 : f1.type = "application/pdf") (h2 : f2.type = "application/pdf") :
    (handleFileChange (handleFileChange s (some f1) (PipelineOutcome.ok n1 d1))
        (some f2) (PipelineOutcome.ok n2 d2)).pdfName = some f2.name
    ∧ (handleFileChange (handleFileChange s (some f1) (PipelineOutcome.ok n1 d1))
        (some f2) (PipelineOutcome.ok n2 d2)).renderedImage = some d2
    ∧ (handleFileChange (handleFileChange s (some f1) (PipelineOutcome.ok n1 d1))
        (some f2) (PipelineOutcome.ok n2 d2)).pageCount = some n2 := by
  simp [handleFileChange, h1, h2, runPipeline, acceptPrelude]

/-- Witness for C7 at two concrete uploads. -/
theorem second_upload_replaces_witness :
    (handleFileChange (handleFileChange initialState (some samplePdf) (PipelineOutcome.ok 1 "dataA"))
        (some samplePdfB) (PipelineOutcome.ok 2 "dataB")).pdfName = some samplePdfB.name
    ∧ (handleFileChange (handleFileChange initialState (some samplePdf) (PipelineOutcome.ok 1 "dataA"))
        (some samplePdfB) (PipelineOutcome.ok 2 "dataB")).renderedImage = some "dataB"
    ∧ (handleFileChange (handleFileChange initialState (some samplePdf) (PipelineOutcome.ok 1 "dataA"))
        (some samplePdfB) (PipelineOutcome.ok 2 "dataB")).pageCount = some 2 :=
  second_upload_replaces initialState samplePdf samplePdfB 1 2 "dataA" "dataB" rfl rfl

/-- Counterexample to claim C1 as stated: when the pipeline throws an
Error instance whose message is the empty string, the catch branch
stores that empty message verbatim, so the error-message state is the
empty string rather than a non-empty one. -/
theorem empty_error_message_cex :
    (handleFileChange initialState (some samplePdf)
        (PipelineOutcome.failEarly (JsThrown.errorObj ""))).renderedImage = none
    ∧ (handleFileChange initialState (some samplePdf)
        (PipelineOutcome.failEarly (JsThrown.errorObj ""))).pageCount = none
    ∧ (handleFileChange initialState (some samplePdf)
        (PipelineOutcome.failEarly (JsThrown.errorObj ""))).renderError = some "" :=
  ⟨rfl, rfl, rfl⟩

/-- Claim C1 amended: on an accepted PDF, a successful pipeline yields a
page count equal to the document's page count (at least 1 whenever the
library reports at least one page, which it does for every successfully
opened document) and a non-null rendered image; every failing pipeline
is caught, leaves rendered image and page count null, and stores a
non-null message: the thrown Error's message verbatim (possibly empty),
or the fixed non-empty fallback for non-Error throws; the explicit
canvas-context message is likewise non-empty. -/
theorem pipeline_result_spec (s : LetterheadState) (f : MFile)
    (hf : f.type = "application/pdf") :
    (∀ n : Nat, ∀ d : String,
        (handleFileChange s (some f) (PipelineOutcome.ok n d)).pageCount = some n
        ∧ (handleFileChange s (some f) (PipelineOutcome.ok n d)).renderedImage = some d)
    ∧ (∀ n : Nat, ∀ d : String, 1 ≤ n →
        1 ≤ ((handleFileChange s (some f) (PipelineOutcome.ok n d)).pageCount.getD 0))
    ∧ (∀ o : PipelineOutcome, (∀ n d, o ≠ PipelineOutcome.ok n d) →
        (handleFileChange s (some f) o).renderedImage = none
        ∧ (handleFileChange s (some f) o).pageCount = none
        ∧ ∃ m : String, (handleFileChange s (some f) o).renderError = some m)
    ∧ (∀ e : JsThrown,
        (handleFileChange s (some f) (PipelineOutcome.failEarly e)).renderError
          = some (caughtMessage e))
    ∧ (∀ n : Nat, ∀ e : JsThrown,
        (handleFileChange s (some f) (PipelineOutcome.failLate n e)).renderError
          = some (caughtMessage e))
    ∧ (∀ n : Nat,
        (handleFileChange s (some f) (PipelineOutcome.noCanvasContext n)).renderError
          = some canvasContextMessage)
    ∧ genericRenderMessage ≠ "" ∧ canvasContextMessage ≠ "" := by
  refine ⟨?_, ?_, ?_, ?_, ?_, ?_, by decide, by decide⟩
  · intro n d
    simp [handleFileChange, hf, runPipeline, acceptPrelude]
  · intro n d hn
    simp [handleFileChange, hf, runPipeline, acceptPrelude, hn]
  · intro o ho
    cases o with
    | failEarly e => simp [handleFileChange, hf, runPipeline, acceptPrelude, applyCatch]
    | failLate n e => simp [handleFileChange, hf, runPipeline, acceptPrelude, applyCatch]
    | noCanvasContext n => simp [handleFileChange, hf, runPipeline, acceptPrelude, applyCatch]
    | ok n d => exact absurd rfl (ho n d)
  · intro e
    simp [handleFileChange, hf, runPipeline, acceptPrelude, applyCatch]
  · intro n e
    simp [handleFileChange, hf, runPipeline, acceptPrelude, applyCatch]
  · intro n
    simp [handleFileChange, hf, runPipeline, acceptPrelude, applyCatch]

/-- Witness for the amended C1 at concrete outcomes. -/
theorem pipeline_result_spec_witness :
    (handleFileChange initialState (some samplePdf) (PipelineOutcome.ok 3 "img")).pageCount = some 3
    ∧ (handleFileChange initialState (some samplePdf) (PipelineOutcome.ok 3 "img")).renderedImage
        = some "img"
    ∧ (handleFileChange initialState (some samplePdf)
        (PipelineOutcome.failLate 2 JsThrown.other)).renderedImage = none
    ∧ (handleFileChange initialState (some samplePdf)
        (PipelineOutcome.failLate 2 JsThrown.other)).renderError
        = some (caughtMessage JsThrown.other) := by
  have h := pipeline_result_spec initialState samplePdf rfl
  exact ⟨(h.1 3 "img").1, (h.1 3 "img").2,
    (h.2.2.1 (PipelineOutcome.failLate 2 JsThrown.other) (by intro n d hc; cases hc)).1,
    h.2.2.2.2.1 2 JsThrown.other⟩

/-- Counterexample to claim C6 as stated: accepting a new PDF selection
does not set the rendered image to null before the new render completes;
the prelude state that begins the pipeline still carries the previously
rendered image, and on success the image goes directly from the old data
URL to the new one. -/
theorem stale_image_before_render_cex :
    (acceptPrelude previousRenderState samplePdfB).renderedImage
      = some "data:image/jpeg;base64,first"
    ∧ handleFileChange previousRenderState (some samplePdfB)
        (PipelineOutcome.ok 1 "data:image/jpeg;base64,second")
      = runPipeline (acceptPrelude previousRenderState samplePdfB)
        (PipelineOutcome.ok 1 "data:image/jpeg;base64,second")
    ∧ (handleFileChange previousRenderState (some samplePdfB)
        (PipelineOutcome.ok 1 "data:image/jpeg;base64,second")).renderedImage
      = some "data:image/jpeg;base64,second" :=
  ⟨rfl, rfl, rfl⟩

/-- Claim C6 amended: the rendered image is null until a successful
render completes and is set to null on every error and on every non-PDF
selection; accepting a new PDF leaves the previous image in place while
the pipeline runs, and the image then becomes the new data URL on
success or null on failure. -/
theorem rendered_image_lifecycle (s : LetterheadState) (f : MFile) (o : PipelineOutcome)
    (hf : f.type = "application/pdf") :
    (acceptPrelude s f).renderedImage = s.renderedImage
    ∧ (∀ n d, o = PipelineOutcome.ok n d →
        (handleFileChange s (some f) o).renderedImage = some d)
    ∧ ((∀ n d, o ≠ PipelineOutcome.ok n d) →
        (handleFileChange s (some f) o).renderedImage = none)
    ∧ (∀ g : MFile, g.type ≠ "application/pdf" →
        (handleFileChange s (some g) o).renderedImage = none) := by
  refine ⟨rfl, ?_, ?_, ?_⟩
  · intro n d ho
    subst ho
    simp [handleFileChange, hf, runPipeline, acceptPrelude]
  · intro ho
    cases o with
    | failEarly e => simp [handleFileChange, hf, runPipeline, acceptPrelude, applyCatch]
    | failLate n e => simp [handleFileChange, hf, runPipeline, acceptPrelude, applyCatch]
    | noCanvasContext n => simp [handleFileChange, hf, runPipeline, acceptPrelude, applyCatch]
    | ok n d => exact absurd rfl (ho n d)
  · intro g hg
    simp [handleFileChange, hg]

/-- Witness for the amended C6 at concrete inputs. -/
theorem rendered_image_lifecycle_witness :
    (acceptPrelude initialState samplePdf).renderedImage = initialState.renderedImage
    ∧ (handleFileChange initialState (some samplePdf)
        (PipelineOutcome.failEarly JsThrown.other)).renderedImage = none
    ∧ (handleFileChange initialState (some textFile)
        (PipelineOutcome.failEarly JsThrown.other)).renderedImage = none := by
  have h := rendered_image_lifecycle initialState samplePdf
    (PipelineOutcome.failEarly JsThrown.other) rfl
  exact ⟨h.1, h.2.2.1 (by intro n d hc; cases hc), h.2.2.2 textFile (by decide)⟩

/-- Claim C5: for a successful render of a page with native width w into
a container of width containerWidth, the render scale is containerWidth
divided by w times 4, so the scaled viewport is exactly four container
widths wide and the canvas takes that width rounded down to an
integer. -/
theorem render_scale_width (w cw : ℚ) (cwOpt : Option ℚ)
    (hw : 0 < w) (hc : cwOpt = some cw) :
    renderScale (effectiveContainerWidth cwOpt w) w = cw / w * 4
    ∧ viewportWidth w (renderScale (effectiveContainerWidth cwOpt w) w) = cw * 4
    ∧ canvasWidth cw w = ⌊cw * 4⌋ := by
  subst hc
  have hw0 : w ≠ 0 := ne_of_gt hw
  have hmain : w * (cw / w * 4) = cw * 4 := by
    field_simp
  refine ⟨rfl, ?_, ?_⟩
  · show w * (cw / w * 4) = cw * 4
    exact hmain
  · show ⌊w * (cw / w * 4)⌋ = ⌊cw * 4⌋
    rw [hmain]

/-- Witness for C5: a 612 point wide page rendered into an 800 pixel
wide container produces a 3200 pixel wide canvas. -/
theorem render_scale_width_witness : canvasWidth 800 612 = 3200 := by
  have h := (render_scale_width 612 800 (some 800) (by norm_num) rfl).2.2
  rw [h]
  norm_num

end Letterhead
